import Mathlib

/-!
Shallow embedding of the authentication-session and account-mutation core of
moonfire-nvr: the user-management HTTP handlers (`server/src/web/users.rs`)
and the session-issuance command (`server/src/cmds/login.rs`).

Pure data is embedded as Lean structures; the handlers, which mutate the
account store behind a lock, are embedded as functions threading the store
state explicitly and returning the (possibly updated) store together with an
`Except`-style response. External collaborators (the password-verification
function, the base64 encoder, the session-id generator) are abstracted as
parameters or deterministic stand-ins, as the specification directs.
-/

namespace Moonfire

/-- Permission set: bit-level capability model attached to a user or session
(`db::Permissions`). Only the `admin_users` bit is inspected by the code in
scope; all other capability bits are collapsed into `rest` so that equality
of permission sets remains meaningful. -/
structure Permissions where
  adminUsers : Bool
  rest : Nat
deriving DecidableEq

/-- Mutable configuration of a user record (`UserConfig`): the `disabled`
flag and the opaque `preferences` blob (modelled as a string). -/
structure UserConfig where
  disabled : Bool
  preferences : String
deriving DecidableEq

/-- A user record in the account store. The password hash is an optional
secret; hashing itself is an external collaborator, so the stored value is
kept abstract (the `set` operation below stores the raw argument as a
stand-in for its hash, which no theorem inspects directly). -/
structure User where
  id : Int
  username : String
  passwordHash : Option String
  config : UserConfig
  permissions : Permissions
deriving DecidableEq

/-- The tri-state password operation carried by a `UserChange`:
no-op, clear, or set to a new value. -/
inductive PasswordOp
  | noop
  | clear
  | set (password : String)
deriving DecidableEq

/-- A pending change to an existing user (`db::UserChange` obtained from
`user.change()`): a full copy of the mutable fields plus a password
operation, applied atomically by the store. -/
structure UserChange where
  id : Int
  username : String
  config : UserConfig
  permissions : Permissions
  passwordOp : PasswordOp
deriving DecidableEq

/-- The change handle `user.change()`: starts as a copy of the current
mutable state with a no-op password operation. -/
def User.change (u : User) : UserChange :=
  { id := u.id
    username := u.username
    config := u.config
    permissions := u.permissions
    passwordOp := .noop }

/-- Applying a `UserChange` to the user it targets: all mutable fields are
replaced together (the store applies the change atomically). -/
def UserChange.applyTo (c : UserChange) (u : User) : User :=
  { u with
    username := c.username
    config := c.config
    permissions := c.permissions
    passwordHash :=
      match c.passwordOp with
      | .noop => u.passwordHash
      | .clear => none
      | .set p => some p }

/-- The account store visible to the user-management handlers: users keyed
by id, plus the id the store will assign to the next created user. -/
structure Db where
  users : List (Int × User)
  nextId : Int
deriving DecidableEq

/-- Store lookup `users_by_id().get(&id)` / `get_user_by_id_mut(id)`. -/
def Db.getUserById (db : Db) (id : Int) : Option User :=
  (db.users.find? (fun e => e.1 == id)).map (fun e => e.2)

/-- Store mutation `apply_user_change` for a change targeting an existing
user: the targeted record is replaced in a single step. -/
def Db.applyUserChange (db : Db) (c : UserChange) : Db :=
  { db with users := db.users.map (fun e => if e.1 == c.id then (e.1, c.applyTo e.2) else e) }

/-- The fields of an add-user change (`UserChange::add_user(username)` plus
the optional assignments `post_users` performs on it before applying). -/
structure AddUserChange where
  username : String
  passwordOp : PasswordOp := .noop
  preferences : String := ""
  disabled : Bool := false
  permissions : Permissions := { adminUsers := false, rest := 0 }
deriving DecidableEq

/-- Store mutation `apply_user_change` for an add-user change: a fresh id is
assigned and the new record inserted; the new id is returned. -/
def Db.addUser (db : Db) (c : AddUserChange) : Db × Int :=
  let id := db.nextId
  ( { users :=
        db.users ++
          [(id,
            { id := id
              username := c.username
              passwordHash :=
                match c.passwordOp with
                | .set p => some p
                | _ => none
              config := { disabled := c.disabled, preferences := c.preferences }
              permissions := c.permissions })]
      nextId := id + 1 }
  , id )

/-- The authenticated user carried by a `Caller` (only its id is consulted
by the handlers in scope). -/
structure CallerUser where
  id : Int
deriving DecidableEq

/-- A resolved caller: optional authenticated user, effective permission
set, whether authentication came via a session (which drives CSRF
enforcement), and the CSRF token bound to that session. -/
structure Caller where
  user : Option CallerUser
  permissions : Permissions
  viaSession : Bool
  sessionCsrf : Nat
deriving DecidableEq

/-- The error taxonomy of the handlers. -/
inductive ErrorKind
  | notFound
  | unauthenticated
  | failedPrecondition
  | invalidArgument
  | unimplemented
deriving DecidableEq

/-- An error response: taxonomy kind plus human-readable message. -/
structure Error where
  kind : ErrorKind
  msg : String
deriving DecidableEq

/-- Modelled from the spec: the helper `require_csrf_if_session` lives in
`web/mod.rs`, outside the excerpt. Per the spec, a `csrf` token field is
required, and must match the session, whenever the caller authenticated via
a session; non-session callers are exempt. -/
def requireCsrfIfSession (caller : Caller) (csrf : Option Nat) : Except Error Unit :=
  if caller.viaSession then
    match csrf with
    | none => .error { kind := .unauthenticated, msg := "csrf token must be supplied" }
    | some t =>
      if t == caller.sessionCsrf then .ok ()
      else .error { kind := .unauthenticated, msg := "csrf token mismatch" }
  else
    .ok ()

/-- The guard `require_same_or_admin`: the caller must be authenticated as
the target user or hold `admin_users`. -/
def require_same_or_admin (caller : Caller) (id : Int) : Except Error Unit :=
  if caller.user.map (fun u => u.id) ≠ some id ∧ ¬ caller.permissions.adminUsers = true then
    .error { kind := .unauthenticated
             msg := "must be authenticated as supplied user or have admin_users permission" }
  else
    .ok ()

/-- The JSON body schema `json::UserSubset`: every mutable user field as an
optional value. `password` is tri-state (absent / set-to-null meaning clear /
set-to-value). The extra `unrecognized` flag models fields added to the wire
schema after this protocol version — the payload carries such a field iff
`unrecognized` is true — so that the safety-valve comparisons against
`Default::default()` are expressible. -/
structure UserSubset where
  username : Option String := none
  preferences : Option String := none
  password : Option (Option String) := none
  permissions : Option Permissions := none
  disabled : Option Bool := none
  unrecognized : Bool := false
deriving DecidableEq

/-- The all-absent subset `Default::default()`. -/
def UserSubset.empty : UserSubset := {}

/-- The projection `UserSubset::from(&User)` served by Fetch: the public
fields of the record, omitting secrets. -/
def UserSubset.fromUser (u : User) : UserSubset :=
  { username := some u.username
    preferences := some u.config.preferences
    password := none
    permissions := some u.permissions
    disabled := some u.config.disabled }

/-- The body of a Patch request (`json::PostUser`): CSRF token, optional
precondition, optional update. -/
structure PostUser where
  csrf : Option Nat := none
  precondition : Option UserSubset := none
  update : Option UserSubset := none
deriving DecidableEq

/-- The body of a Create request (`json::PutUsers`). -/
structure PutUsers where
  csrf : Option Nat := none
  user : UserSubset := {}
deriving DecidableEq

/-- The body of a Delete request (`json::DeleteUser`). -/
structure DeleteUser where
  csrf : Option Nat := none
deriving DecidableEq

/-- Store mutation `delete_user(id)`: removes the record if present, fails
with a store-level not-found error otherwise. -/
def Db.deleteUser (db : Db) (id : Int) : Db × Except Error Unit :=
  if (db.users.find? (fun e => e.1 == id)).isSome then
    ({ db with users := db.users.filter (fun e => e.1 != id) }, .ok ())
  else
    (db, .error { kind := .notFound, msg := "no such user" })

/-- The precondition phase of `patch_user` (lines 159-188): each present
field of the precondition is compared against the current record in source
order, failing fast with `FailedPrecondition` naming the field; the password
field is judged by the external verification function `cp`; after all
recognized fields are consumed, a leftover unrecognized field fails with
`Unimplemented`. -/
def checkPrecondition (cp : User → Option String → Bool) (user : User)
    (p : UserSubset) : Except Error Unit :=
  if p.disabled.any (fun d => d != user.config.disabled) then
    .error { kind := .failedPrecondition, msg := "disabled mismatch" }
  else if p.username.any (fun n => n != user.username) then
    .error { kind := .failedPrecondition, msg := "username mismatch" }
  else if p.preferences.any (fun pr => pr != user.config.preferences) then
    .error { kind := .failedPrecondition, msg := "preferences mismatch" }
  else if p.password.any (fun pw => ! cp user pw) then
    .error { kind := .failedPrecondition, msg := "password mismatch" }
  else if p.permissions.any (fun pm => user.permissions != pm) then
    .error { kind := .failedPrecondition, msg := "permissions mismatch" }
  else if p.unrecognized then
    .error { kind := .unimplemented, msg := "preconditions not supported" }
  else
    .ok ()

/-- The update phase of `patch_user` (lines 189-219): the self-serviceable
fields (`preferences`, password set/clear) are folded into the change first;
if anything else remains, the caller must hold `admin_users`; the remaining
recognized fields are then folded in, and a leftover unrecognized field
fails with `Unimplemented`. -/
def buildUpdateChange (caller : Caller) (user : User)
    (upd : UserSubset) : Except Error UserChange :=
  let change := user.change
  let change :=
    match upd.preferences with
    | some p => { change with config := { change.config with preferences := p } }
    | none => change
  let change :=
    match upd.password with
    | none => change
    | some none => { change with passwordOp := .clear }
    | some (some p) => { change with passwordOp := .set p }
  let rest := { upd with preferences := none, password := none }
  if rest != UserSubset.empty && ! caller.permissions.adminUsers then
    .error { kind := .unauthenticated, msg := "must have admin_users permission" }
  else
    let change :=
      match rest.disabled with
      | some d => { change with config := { change.config with disabled := d } }
      | none => change
    let change :=
      match rest.username with
      | some n => { change with username := n }
      | none => change
    let change :=
      match rest.permissions with
      | some pm => { change with permissions := pm }
      | none => change
    let rest2 := { rest with disabled := none, username := none, permissions := none }
    if rest2 != UserSubset.empty then
      .error { kind := .unimplemented, msg := "updates not supported" }
    else
      .ok change

end Moonfire

namespace Moonfire.Service

open Moonfire

/-- The Fetch-single handler `get_user`: same-or-admin guard, then store
lookup, then the public projection of the record. -/
def get_user (db : Db) (caller : Caller) (id : Int) : Except Error UserSubset :=
  match require_same_or_admin caller id with
  | .error e => .error e
  | .ok () =>
    match db.getUserById id with
    | none => .error { kind := .notFound, msg := "cannot find requested user" }
    | some user => .ok (UserSubset.fromUser user)

/-- The Create handler `post_users`: admin guard, CSRF, mandatory username,
optional password/preferences/permissions folded into a fresh add-user
change, safety valve on leftover fields, then the store insert. The pair
threads the store state: an error leaves it untouched. -/
def post_users (db : Db) (caller : Caller) (r : PutUsers) : Db × Except Error Int :=
  if ! caller.permissions.adminUsers then
    (db, .error { kind := .unauthenticated, msg := "must have admin_users permission" })
  else
    match requireCsrfIfSession caller r.csrf with
    | .error e => (db, .error e)
    | .ok () =>
      match r.user.username with
      | none => (db, .error { kind := .invalidArgument, msg := "username must be specified" })
      | some username =>
        let change : AddUserChange := { username := username }
        let change :=
          match r.user.password with
          | some (some pwd) => { change with passwordOp := .set pwd }
          | _ => change
        let change :=
          match r.user.preferences with
          | some p => { change with preferences := p }
          | none => change
        let change :=
          match r.user.permissions with
          | some pm => { change with permissions := pm }
          | none => change
        let rest := { r.user with
          username := none
          password := none
          preferences := none
          permissions := none }
        if rest != UserSubset.empty then
          (db, .error { kind := .unimplemented, msg := "unsupported user fields" })
        else
          let out := db.addUser change
          (out.1, .ok out.2)

/-- The Delete handler `delete_user`: admin guard, CSRF, then the store
removal. -/
def delete_user (db : Db) (caller : Caller) (id : Int) (r : DeleteUser) :
    Db × Except Error Unit :=
  if ! caller.permissions.adminUsers then
    (db, .error { kind := .unauthenticated, msg := "must have admin_users permission" })
  else
    match requireCsrfIfSession caller r.csrf with
    | .error e => (db, .error e)
    | .ok () => db.deleteUser id

/-- The Patch handler `patch_user` (lines 136-225), in source order:
same-or-admin guard; store lookup; the password-change authorization
refinement (an update password operation without a precondition password
requires `admin_users`); CSRF; the precondition phase; the update phase;
and finally the atomic store commit. The pair threads the store state: an
error leaves it untouched, and a body with no update skips the commit. -/
def patch_user (cp : User → Option String → Bool) (db : Db) (caller : Caller)
    (id : Int) (r : PostUser) : Db × Except Error Unit :=
  match require_same_or_admin caller id with
  | .error e => (db, .error e)
  | .ok () =>
    match db.getUserById id with
    | none => (db, .error { kind := .notFound, msg := "cannot find requested user" })
    | some user =>
      if (r.update.bind (fun u => u.password)).isSome
          && (r.precondition.bind (fun p => p.password)).isNone
          && ! caller.permissions.adminUsers then
        (db, .error
          { kind := .unauthenticated
            msg := "to change password, must supply previous password or have admin_users permission" })
      else
        match requireCsrfIfSession caller r.csrf with
        | .error e => (db, .error e)
        | .ok () =>
          match (match r.precondition with
                 | some p => checkPrecondition cp user p
                 | none => .ok ()) with
          | .error e => (db, .error e)
          | .ok () =>
            match r.update with
            | none => (db, .ok ())
            | some upd =>
              match buildUpdateChange caller user upd with
              | .error e => (db, .error e)
              | .ok change => (db.applyUserChange change, .ok ())

end Moonfire.Service

namespace Moonfire.Login

/-- The session cookie flags (`db::auth::SessionFlag`). -/
inductive SessionFlag
  | httpOnly
  | secure
  | sameSite
  | sameSiteStrict
deriving DecidableEq

/-- Modelled from the spec: the integer bit values of `db::auth::SessionFlag`
are defined in the `db` crate, outside the excerpt. The spec requires four
distinct stable bits (HttpOnly, Secure, SameSite, SameSiteStrict); they are
assigned the four lowest bits in declaration order. -/
def SessionFlag.toBits : SessionFlag → Nat
  | .httpOnly => 1
  | .secure => 2
  | .sameSite => 4
  | .sameSiteStrict => 8

/-- The fold `for f in &args.session_flags { flags |= *f as i32 }`. -/
def flagsOf (sessionFlags : List SessionFlag) : Nat :=
  sessionFlags.foldl (fun acc f => acc ||| f.toBits) 0

/-- The cookie-jar line builder `curl_cookie`: one Netscape-format line,
written exactly as the source format string concatenates its pieces. -/
def curl_cookie (cookie : String) (flags : Nat) (domain : String) : String :=
  (if flags &&& SessionFlag.httpOnly.toBits != 0 then "#HttpOnly_" else "")
    ++ domain
    ++ "\t" ++ "FALSE"
    ++ "\t" ++ "/"
    ++ "\t" ++ (if flags &&& SessionFlag.secure.toBits != 0 then "TRUE" else "FALSE")
    ++ "\t" ++ "9223372036854775807"
    ++ "\t" ++ "s"
    ++ "\t" ++ cookie

/-- Joins a list of fields with single tab characters; used to state that a
line consists of exactly the given tab-separated fields. -/
def tabSeparated : List String → String
  | [] => ""
  | [x] => x
  | x :: xs => x ++ "\t" ++ tabSeparated xs

/-- A session record as created by the login subcommand: owner, frozen
permission snapshot, flag bitmask, optional scoping domain. Creation
metadata (timestamp, user agent, address) is provenance only and not
consulted by anything in scope, so it is omitted. -/
structure Session where
  userId : Int
  permissions : Permissions
  flags : Nat
  domain : Option String
deriving DecidableEq

/-- The parsed command-line arguments of the login subcommand (`Args`).
The database-directory argument selects which store to open, an external
concern, so it is not carried here. -/
structure Args where
  permissions : Option Permissions := none
  domain : Option String := none
  curlCookieJar : Option String := none
  sessionFlags : List SessionFlag := []
  username : String
deriving DecidableEq

/-- The state the login subcommand operates on: the account store plus its
session table and the source of the next fresh session id. -/
structure LoginDb where
  users : List (Int × User)
  sessions : List Session
  nextSid : Nat
deriving DecidableEq

/-- Store lookup `get_user(&username)` by username. -/
def LoginDb.get_user (db : LoginDb) (username : String) : Option User :=
  (db.users.find? (fun e => e.2.username == username)).map (fun e => e.2)

/-- Modelled from the spec: `make_session` lives in the `db` crate, outside
the excerpt. Per the spec, it creates a session record carrying the given
permissions, flags and domain for the given user, with a cryptographically
random fresh id; the id generator is modelled as a counter. -/
def LoginDb.make_session (db : LoginDb) (userId : Int) (domain : Option String)
    (flags : Nat) (permissions : Permissions) : LoginDb × Nat :=
  ( { db with
      sessions := db.sessions ++
        [{ userId := userId, permissions := permissions, flags := flags, domain := domain }]
      nextSid := db.nextSid + 1 }
  , db.nextSid )

/-- The observable outcome of a successful login run: either a cookie-jar
file written at a path with given content, or a line printed to stdout. -/
inductive Output
  | wroteFile (path content : String)
  | printed (line : String)
deriving DecidableEq

/-- The comment header written at the top of a cookie-jar file. -/
def jarHeader : String :=
  "# Netscape HTTP Cookie File\n# https://curl.haxx.se/docs/http-cookies.html\n# This file was generated by moonfire-nvr login! Edit at your own risk.\n\n"

/-- The login subcommand `run` (lines 67-125), in source order: resolve the
username (else fail), select the permission snapshot (override or the
current user permissions), fold the flag list into a bitmask, create the
session, then either write the cookie-jar file (requiring a domain) or
print the raw credential. File I/O is represented by the `wroteFile`
output; the base64 encoding of the random session id is external, so the
fresh id is rendered with `toString` as a stand-in. -/
def run (db : LoginDb) (args : Args) : LoginDb × Except String Output :=
  match db.get_user args.username with
  | none => (db, .error ("no such user " ++ args.username))
  | some u =>
    let permissions := args.permissions.getD u.permissions
    let flags := flagsOf args.sessionFlags
    let out := db.make_session u.id args.domain flags permissions
    let db2 := out.1
    let encoded := toString out.2
    match args.curlCookieJar with
    | some p =>
      match args.domain with
      | none => (db2, .error "--curl-cookie-jar requires --domain")
      | some d => (db2, .ok (.wroteFile p (jarHeader ++ curl_cookie encoded flags d ++ "\n")))
    | none => (db2, .ok (.printed ("s=" ++ encoded)))

end Moonfire.Login

namespace Moonfire

/-- A sample password checker for concrete evaluations: accepts exactly the
stored hash field. -/
def cpEq : User → Option String → Bool := fun u p => p == u.passwordHash

/-- A sample non-admin user record. -/
def alice : User :=
  { id := 1
    username := "alice"
    passwordHash := some "secret"
    config := { disabled := false, preferences := "p0" }
    permissions := { adminUsers := false, rest := 0 } }

/-- A sample store holding only `alice`. -/
def dbOne : Db := { users := [(1, alice)], nextId := 2 }

/-- Alice authenticated otherwise than by a session (no CSRF needed). -/
def aliceCaller : Caller :=
  { user := some { id := 1 }
    permissions := { adminUsers := false, rest := 0 }
    viaSession := false
    sessionCsrf := 0 }

/-- Alice authenticated by a session whose CSRF token is 42. -/
def aliceSessionCaller : Caller :=
  { user := some { id := 1 }
    permissions := { adminUsers := false, rest := 0 }
    viaSession := true
    sessionCsrf := 42 }

/-- An admin caller distinct from alice. -/
def adminCaller : Caller :=
  { user := some { id := 9 }
    permissions := { adminUsers := true, rest := 0 }
    viaSession := false
    sessionCsrf := 0 }

/-- A non-admin caller distinct from alice. -/
def strangerCaller : Caller :=
  { user := some { id := 2 }
    permissions := { adminUsers := false, rest := 0 }
    viaSession := false
    sessionCsrf := 0 }

/-- A sample login-command store holding only `alice`. -/
def loginDbOne : Login.LoginDb := { users := [(1, alice)], sessions := [], nextSid := 11 }

/-- Sample login arguments requesting a cookie jar but no domain. -/
def jarNoDomainArgs : Login.Args :=
  { username := "alice"
    curlCookieJar := some "cookies.txt"
    sessionFlags := [.httpOnly, .secure] }

/-- Sample login arguments with neither cookie jar nor permission override. -/
def plainArgs : Login.Args := { username := "alice" }

/-- A sample store holding no users. -/
def dbEmpty : Db := { users := [], nextId := 1 }

/-- An admin authenticated by a session whose CSRF token is 42. -/
def adminSessionCaller : Caller :=
  { user := some { id := 9 }
    permissions := { adminUsers := true, rest := 0 }
    viaSession := true
    sessionCsrf := 42 }

/-- The guard succeeds whenever the caller is the target user. -/
theorem require_same_or_admin_of_same {caller : Caller} {id : Int}
    (h : caller.user.map (fun u => u.id) = some id) :
    require_same_or_admin caller id = .ok () := by
  simp [require_same_or_admin, h]

/-- The guard succeeds whenever the caller holds `admin_users`. -/
theorem require_same_or_admin_of_admin {caller : Caller} {id : Int}
    (h : caller.permissions.adminUsers = true) :
    require_same_or_admin caller id = .ok () := by
  simp [require_same_or_admin, h]

/-- Every error produced by the CSRF guard is `Unauthenticated`. -/
theorem requireCsrfIfSession_error_kind {caller : Caller} {csrf : Option Nat} {e : Error}
    (h : requireCsrfIfSession caller csrf = .error e) : e.kind = .unauthenticated := by
  unfold requireCsrfIfSession at h
  split at h
  · split at h
    · cases h; rfl
    · split at h
      · cases h
      · cases h; rfl
  · cases h

/-- Patch reaching the precondition phase with a failing precondition
returns that error and leaves the store untouched. -/
theorem patch_user_precondition_error (cp : User → Option String → Bool)
    {db : Db} {caller : Caller} {id : Int} {r : PostUser} {user : User} {p : UserSubset}
    {e : Error}
    (hAuth : require_same_or_admin caller id = .ok ())
    (hUser : db.getUserById id = some user)
    (hRef : ((r.update.bind (fun u => u.password)).isSome
        && (r.precondition.bind (fun q => q.password)).isNone
        && ! caller.permissions.adminUsers) = false)
    (hCsrf : requireCsrfIfSession caller r.csrf = .ok ())
    (hP : r.precondition = some p)
    (hChk : checkPrecondition cp user p = .error e) :
    Service.patch_user cp db caller id r = (db, .error e) := by
  unfold Service.patch_user
  rw [hAuth, hUser, hRef, hCsrf, hP]
  simp [hChk]

/-- Claim C5: for every session id string, flag bitmask and domain, the
cookie-jar line is exactly the seven tab-separated fields
`[#HttpOnly_]domain`, `FALSE`, `/`, `TRUE`/`FALSE` by the Secure bit,
`9223372036854775807`, `s`, and the encoded session id; and the output
depends only on the HttpOnly and Secure bits of the flag word, so the
SameSite and SameSiteStrict bits have no effect. -/
theorem c5_curl_cookie_line (cookie domain : String) (flags : Nat) :
    Login.curl_cookie cookie flags domain =
      Login.tabSeparated
        [(if flags &&& Login.SessionFlag.httpOnly.toBits != 0 then "#HttpOnly_" else "") ++ domain,
         "FALSE",
         "/",
         (if flags &&& Login.SessionFlag.secure.toBits != 0 then "TRUE" else "FALSE"),
         "9223372036854775807",
         "s",
         cookie] ∧
    Login.curl_cookie cookie flags domain =
      Login.curl_cookie cookie
        (flags &&& (Login.SessionFlag.httpOnly.toBits ||| Login.SessionFlag.secure.toBits))
        domain := by
  constructor
  · simp only [Login.curl_cookie, Login.tabSeparated, String.append_assoc]
  · have h1 : flags &&& (Login.SessionFlag.httpOnly.toBits ||| Login.SessionFlag.secure.toBits)
        &&& Login.SessionFlag.httpOnly.toBits = flags &&& Login.SessionFlag.httpOnly.toBits := by
      rw [Nat.land_assoc,
        (by decide : (Login.SessionFlag.httpOnly.toBits ||| Login.SessionFlag.secure.toBits)
          &&& Login.SessionFlag.httpOnly.toBits = Login.SessionFlag.httpOnly.toBits)]
    have h2 : flags &&& (Login.SessionFlag.httpOnly.toBits ||| Login.SessionFlag.secure.toBits)
        &&& Login.SessionFlag.secure.toBits = flags &&& Login.SessionFlag.secure.toBits := by
      rw [Nat.land_assoc,
        (by decide : (Login.SessionFlag.httpOnly.toBits ||| Login.SessionFlag.secure.toBits)
          &&& Login.SessionFlag.secure.toBits = Login.SessionFlag.secure.toBits)]
    simp only [Login.curl_cookie, h1, h2]

/-- Patch with the structural guard passed and the target found reduces to
the password-refinement check followed by CSRF, precondition and update
phases. -/
theorem patch_user_eq_body (cp : User → Option String → Bool)
    {db : Db} {caller : Caller} {id : Int} {r : PostUser} {user : User}
    (hAuth : require_same_or_admin caller id = .ok ())
    (hUser : db.getUserById id = some user) :
    Service.patch_user cp db caller id r =
      (if ((r.update.bind (fun u => u.password)).isSome
          && (r.precondition.bind (fun q => q.password)).isNone
          && ! caller.permissions.adminUsers) = true then
        (db, .error { kind := .unauthenticated
                      msg := "to change password, must supply previous password or have admin_users permission" })
      else
        match requireCsrfIfSession caller r.csrf with
        | .error e => (db, .error e)
        | .ok () =>
          match (match r.precondition with
                 | some p => checkPrecondition cp user p
                 | none => .ok ()) with
          | .error e => (db, .error e)
          | .ok () =>
            match r.update with
            | none => (db, .ok ())
            | some upd =>
              match buildUpdateChange caller user upd with
              | .error e => (db, .error e)
              | .ok change => (db.applyUserChange change, .ok ())) := by
  unfold Service.patch_user
  rw [hAuth, hUser]

/-- The update phase rejects a non-admin caller whenever the update carries
any field beyond the self-serviceable ones. -/
theorem buildUpdateChange_nonadmin_error {caller : Caller} {user : User} {upd : UserSubset}
    (hNoAdmin : caller.permissions.adminUsers = false)
    (hne : upd.disabled ≠ none ∨ upd.username ≠ none ∨ upd.permissions ≠ none) :
    buildUpdateChange caller user upd =
      .error { kind := .unauthenticated, msg := "must have admin_users permission" } := by
  obtain ⟨un, pref, pw, perm, dis, unrec⟩ := upd
  have hrest : (UserSubset.mk un none none perm dis unrec != UserSubset.empty) = true := by
    rw [bne_iff_ne]
    intro h
    simp only [UserSubset.empty, UserSubset.mk.injEq] at h
    rcases hne with h1 | h1 | h1
    · exact h1 h.2.2.2.2.1
    · exact h1 h.1
    · exact h1 h.2.2.2.1
  simp [buildUpdateChange, hNoAdmin, hrest]

/-- Counterexample for C1 as stated: alice, a non-admin, self-patches with
an update containing only a password operation (a clear), an absent
precondition (which trivially holds) and no session (so CSRF passes); the
claim says such a pure self-service patch succeeds, but the handler rejects
it with `Unauthenticated` because the password operation is not accompanied
by a precondition password. -/
theorem c1_self_service_patch_counterexample :
    Service.patch_user cpEq dbOne aliceCaller 1
      { csrf := none, precondition := none, update := some { password := some none } } =
      (dbOne, .error { kind := .unauthenticated
                       msg := "to change password, must supply previous password or have admin_users permission" }) := by
  rfl

/-- Claim C1 (amended): for a Patch whose caller is the target user but
lacks `admin_users`, with CSRF passing and every present precondition field
passing: if the update payload contains only `preferences` and/or a
password operation (set or clear), and any password operation is
accompanied by a password field in the precondition, then no admin check
fires and the patch succeeds; if the update payload additionally contains
any of `disabled`, `username` or `permissions`, the request fails with
`Unauthenticated` and no field of the target record is modified. -/
theorem c1_self_service_patch (cp : User → Option String → Bool)
    {db : Db} {caller : Caller} {id : Int} {r : PostUser} {user : User}
    (hSame : caller.user.map (fun u => u.id) = some id)
    (hNoAdmin : caller.permissions.adminUsers = false)
    (hUser : db.getUserById id = some user)
    (hCsrf : requireCsrfIfSession caller r.csrf = .ok ())
    (hPre : ∀ p, r.precondition = some p → checkPrecondition cp user p = .ok ()) :
    (∀ upd, r.update = some upd →
      upd.disabled = none → upd.username = none → upd.permissions = none →
      upd.unrecognized = false →
      (upd.password.isSome = true → (r.precondition.bind (fun q => q.password)).isSome = true) →
      (Service.patch_user cp db caller id r).2 = .ok ()) ∧
    (∀ upd, r.update = some upd →
      (upd.disabled ≠ none ∨ upd.username ≠ none ∨ upd.permissions ≠ none) →
      (Service.patch_user cp db caller id r).1 = db ∧
      ∃ m, (Service.patch_user cp db caller id r).2 =
        .error { kind := .unauthenticated, msg := m }) := by
  have hAuth := require_same_or_admin_of_same hSame
  constructor
  · intro upd hUpd hD hU hPm hUn hPP
    obtain ⟨un, pref, pw, perm, dis, unrec⟩ := upd
    simp only at hD hU hPm hUn hPP
    subst hD hU hPm hUn
    unfold Service.patch_user
    rw [hAuth, hUser, hUpd]
    cases hpw : pw with
    | none =>
      subst hpw
      cases hp : r.precondition with
      | none => simp [hCsrf, hNoAdmin, buildUpdateChange, UserSubset.empty]
      | some p => simp [hCsrf, hNoAdmin, hPre p hp, buildUpdateChange, UserSubset.empty]
    | some x =>
      subst hpw
      have h2 := hPP rfl
      cases hp : r.precondition with
      | none => rw [hp] at h2; simp at h2
      | some q =>
        rw [hp] at h2
        obtain ⟨y, hy⟩ := Option.isSome_iff_exists.mp (by simpa using h2)
        cases x with
        | none =>
          simp [hCsrf, hNoAdmin, hPre q hp, hy, buildUpdateChange, UserSubset.empty]
        | some z =>
          simp [hCsrf, hNoAdmin, hPre q hp, hy, buildUpdateChange, UserSubset.empty]
  · intro upd hUpd hne
    have key : ∃ m, Service.patch_user cp db caller id r =
        (db, .error { kind := .unauthenticated, msg := m }) := by
      rw [patch_user_eq_body cp hAuth hUser]
      by_cases hcond : ((r.update.bind (fun u => u.password)).isSome
          && (r.precondition.bind (fun q => q.password)).isNone
          && ! caller.permissions.adminUsers) = true
      · refine ⟨"to change password, must supply previous password or have admin_users permission", ?_⟩
        rw [if_pos hcond]
      · rw [if_neg hcond, hCsrf]
        cases hp : r.precondition with
        | none =>
          rw [hUpd]
          simp [buildUpdateChange_nonadmin_error hNoAdmin hne]
        | some q =>
          rw [hUpd]
          simp [hPre q hp, buildUpdateChange_nonadmin_error hNoAdmin hne]
    obtain ⟨m, hm⟩ := key
    exact ⟨by rw [hm], m, by rw [hm]⟩

/-- Witness for C1: alice self-patches only her preferences with no session
and a matching precondition; the patch succeeds. -/
theorem c1_self_service_patch_witness :
    (Service.patch_user cpEq dbOne aliceCaller 1
      { precondition := some { preferences := some "p0" },
        update := some { preferences := some "p1" } }).2 = .ok () :=
  (@c1_self_service_patch cpEq dbOne aliceCaller 1
      { precondition := some { preferences := some "p0" },
        update := some { preferences := some "p1" } }
      alice rfl rfl rfl rfl
      (by intro p hp; injection hp with h; subst h; rfl)).1
    { preferences := some "p1" } rfl rfl rfl rfl rfl (by intro h; cases h)

/-- Claim C2: the Patch precondition phase, reached once the structural
guard, the password-change refinement and CSRF have passed. Each present
precondition field is compared against the target record in source order
(`disabled`, `username`, `preferences`, `password`, `permissions`); the
first mismatching field aborts the whole request with `FailedPrecondition`
naming that field and leaves the store untouched; the password field is
judged by the external verification function `cp` (universally quantified
here) rather than by direct comparison; and once all recognized fields are
consumed, a leftover unrecognized field aborts with `Unimplemented`. -/
theorem c2_precondition_phase (cp : User → Option String → Bool)
    {db : Db} {caller : Caller} {id : Int} {r : PostUser} {user : User} {p : UserSubset}
    (hAuth : require_same_or_admin caller id = .ok ())
    (hUser : db.getUserById id = some user)
    (hRef : ((r.update.bind (fun u => u.password)).isSome
        && (r.precondition.bind (fun q => q.password)).isNone
        && ! caller.permissions.adminUsers) = false)
    (hCsrf : requireCsrfIfSession caller r.csrf = .ok ())
    (hP : r.precondition = some p) :
    (∀ d, p.disabled = some d → d ≠ user.config.disabled →
      Service.patch_user cp db caller id r =
        (db, .error { kind := .failedPrecondition, msg := "disabled mismatch" })) ∧
    (p.disabled.any (fun d => d != user.config.disabled) = false →
      ∀ n, p.username = some n → n ≠ user.username →
      Service.patch_user cp db caller id r =
        (db, .error { kind := .failedPrecondition, msg := "username mismatch" })) ∧
    (p.disabled.any (fun d => d != user.config.disabled) = false →
      p.username.any (fun n => n != user.username) = false →
      ∀ pr, p.preferences = some pr → pr ≠ user.config.preferences →
      Service.patch_user cp db caller id r =
        (db, .error { kind := .failedPrecondition, msg := "preferences mismatch" })) ∧
    (p.disabled.any (fun d => d != user.config.disabled) = false →
      p.username.any (fun n => n != user.username) = false →
      p.preferences.any (fun pr => pr != user.config.preferences) = false →
      ∀ pw, p.password = some pw → cp user pw = false →
      Service.patch_user cp db caller id r =
        (db, .error { kind := .failedPrecondition, msg := "password mismatch" })) ∧
    (p.disabled.any (fun d => d != user.config.disabled) = false →
      p.username.any (fun n => n != user.username) = false →
      p.preferences.any (fun pr => pr != user.config.preferences) = false →
      p.password.any (fun pw => ! cp user pw) = false →
      ∀ pm, p.permissions = some pm → user.permissions ≠ pm →
      Service.patch_user cp db caller id r =
        (db, .error { kind := .failedPrecondition, msg := "permissions mismatch" })) ∧
    (p.disabled.any (fun d => d != user.config.disabled) = false →
      p.username.any (fun n => n != user.username) = false →
      p.preferences.any (fun pr => pr != user.config.preferences) = false →
      p.password.any (fun pw => ! cp user pw) = false →
      p.permissions.any (fun pm => user.permissions != pm) = false →
      p.unrecognized = true →
      Service.patch_user cp db caller id r =
        (db, .error { kind := .unimplemented, msg := "preconditions not supported" })) := by
  refine ⟨?_, ?_, ?_, ?_, ?_, ?_⟩
  · intro d hd hne
    exact patch_user_precondition_error cp hAuth hUser hRef hCsrf hP
      (by unfold checkPrecondition; rw [hd]; simp [hne])
  · intro h1 n hn hne
    exact patch_user_precondition_error cp hAuth hUser hRef hCsrf hP
      (by unfold checkPrecondition; rw [h1, hn]; simp [hne])
  · intro h1 h2 pr hpr hne
    exact patch_user_precondition_error cp hAuth hUser hRef hCsrf hP
      (by unfold checkPrecondition; rw [h1, h2, hpr]; simp [hne])
  · intro h1 h2 h3 pw hpw hcp
    exact patch_user_precondition_error cp hAuth hUser hRef hCsrf hP
      (by unfold checkPrecondition; rw [h1, h2, h3, hpw]; simp [hcp])
  · intro h1 h2 h3 h4 pm hpm hne
    exact patch_user_precondition_error cp hAuth hUser hRef hCsrf hP
      (by unfold checkPrecondition; rw [h1, h2, h3, h4, hpm]; simp [hne])
  · intro h1 h2 h3 h4 h5 h6
    exact patch_user_precondition_error cp hAuth hUser hRef hCsrf hP
      (by unfold checkPrecondition; rw [h1, h2, h3, h4, h5, h6]; simp)

/-- Witness for C2: alice patches herself with a precondition naming
username "bob" while the record says "alice"; the request fails with
`FailedPrecondition` naming the username field and the store is unchanged. -/
theorem c2_precondition_phase_witness :
    Service.patch_user cpEq dbOne aliceCaller 1
      { precondition := some { username := some "bob" } } =
      (dbOne, .error { kind := .failedPrecondition, msg := "username mismatch" }) :=
  (@c2_precondition_phase cpEq dbOne aliceCaller 1
      { precondition := some { username := some "bob" } }
      alice { username := some "bob" }
      rfl rfl rfl rfl rfl).2.1 rfl "bob" rfl (by decide)

/-- Claim C3: an update carrying a password operation while the precondition
carries no password field fails with `Unauthenticated` for a non-admin
caller — before any precondition field is evaluated, before CSRF, and with
the store untouched — while a caller holding `admin_users` may change the
password without supplying the previous one. -/
theorem c3_password_change_authorization (cp : User → Option String → Bool)
    {db : Db} {caller : Caller} {id : Int} {r : PostUser} {user : User}
    (hAuth : require_same_or_admin caller id = .ok ())
    (hUser : db.getUserById id = some user)
    (hPw : (r.update.bind (fun u => u.password)).isSome = true)
    (hNoPre : r.precondition.bind (fun q => q.password) = none) :
    (caller.permissions.adminUsers = false →
      Service.patch_user cp db caller id r =
        (db, .error { kind := .unauthenticated
                      msg := "to change password, must supply previous password or have admin_users permission" })) ∧
    (caller.permissions.adminUsers = true →
      requireCsrfIfSession caller r.csrf = .ok () →
      (∀ p, r.precondition = some p → checkPrecondition cp user p = .ok ()) →
      ∀ upd, r.update = some upd → upd.unrecognized = false →
        (Service.patch_user cp db caller id r).2 = .ok ()) := by
  constructor
  · intro hNoAdmin
    have hRef : ((r.update.bind (fun u => u.password)).isSome
        && (r.precondition.bind (fun q => q.password)).isNone
        && ! caller.permissions.adminUsers) = true := by
      rw [hPw, hNoPre, hNoAdmin]; rfl
    unfold Service.patch_user
    rw [hAuth, hUser, hRef]
    simp
  · intro hAdmin hCsrf hPre upd hUpd hUnrec
    obtain ⟨un, pref, pw, perm, dis, unrec⟩ := upd
    rw [show unrec = false from hUnrec] at hUpd
    unfold Service.patch_user
    rw [hAuth, hUser, hUpd]
    cases hp : r.precondition with
    | none =>
      simp [hAdmin, hCsrf, buildUpdateChange, UserSubset.empty]
    | some p =>
      simp [hAdmin, hCsrf, hPre p hp, buildUpdateChange, UserSubset.empty]

/-- Witness for C3: alice, a non-admin, tries to set her own password with
no password in the precondition; the request fails with `Unauthenticated`
and the store is unchanged. -/
theorem c3_password_change_authorization_witness :
    Service.patch_user cpEq dbOne aliceCaller 1
      { update := some { password := some (some "newpw") } } =
      (dbOne, .error { kind := .unauthenticated
                       msg := "to change password, must supply previous password or have admin_users permission" }) :=
  (@c3_password_change_authorization cpEq dbOne aliceCaller 1
      { update := some { password := some (some "newpw") } }
      alice rfl rfl rfl rfl).1 rfl

/-- Counterexample for C4 as stated: a session-authenticated Patch whose
CSRF token is invalid (7 against the session token 42) and whose update
carries a password operation with no precondition password, from a
non-admin caller, is answered with the password-refinement error rather
than the CSRF error: the password-change authorization field check at the
top of `patch_user` runs before the CSRF check, contradicting the claimed
ordering. -/
theorem c4_csrf_ordering_counterexample :
    Service.patch_user cpEq dbOne aliceSessionCaller 1
      { csrf := some 7, precondition := none, update := some { password := some (some "x") } } =
      (dbOne, .error { kind := .unauthenticated
                       msg := "to change password, must supply previous password or have admin_users permission" }) ∧
    requireCsrfIfSession aliceSessionCaller (some 7) =
      .error { kind := .unauthenticated, msg := "csrf token mismatch" } :=
  ⟨rfl, rfl⟩

/-- Claim C4 (amended): a session-authenticated mutating request whose CSRF
token is invalid always fails with `Unauthenticated` and no store
mutation. For Create and Delete the CSRF error itself is the response and
precedes every field check; for Patch the CSRF check runs after the
password-change authorization refinement — which can fail first, also with
`Unauthenticated` — but before the precondition and update phases. -/
theorem c4_csrf_failure_before_mutation (cp : User → Option String → Bool)
    (db : Db) (caller : Caller) (id : Int)
    (rc : PutUsers) (rd : DeleteUser) (rp : PostUser) :
    (∀ e, caller.permissions.adminUsers = true →
      requireCsrfIfSession caller rc.csrf = .error e →
      Service.post_users db caller rc = (db, .error e) ∧ e.kind = .unauthenticated) ∧
    (∀ e, caller.permissions.adminUsers = true →
      requireCsrfIfSession caller rd.csrf = .error e →
      Service.delete_user db caller id rd = (db, .error e) ∧ e.kind = .unauthenticated) ∧
    (∀ e user, require_same_or_admin caller id = .ok () →
      db.getUserById id = some user →
      requireCsrfIfSession caller rp.csrf = .error e →
      (Service.patch_user cp db caller id rp).1 = db ∧
      ∃ m, (Service.patch_user cp db caller id rp).2 =
        .error { kind := .unauthenticated, msg := m }) := by
  refine ⟨?_, ?_, ?_⟩
  · intro e hAdm hErr
    refine ⟨?_, requireCsrfIfSession_error_kind hErr⟩
    simp [Service.post_users, hAdm, hErr]
  · intro e hAdm hErr
    refine ⟨?_, requireCsrfIfSession_error_kind hErr⟩
    simp [Service.delete_user, hAdm, hErr]
  · intro e user hAuth hUser hErr
    obtain ⟨k, m⟩ := e
    have hk : k = .unauthenticated := requireCsrfIfSession_error_kind hErr
    subst hk
    have key : ∃ m2, Service.patch_user cp db caller id rp =
        (db, .error { kind := .unauthenticated, msg := m2 }) := by
      rw [patch_user_eq_body cp hAuth hUser]
      by_cases hcond : ((rp.update.bind (fun u => u.password)).isSome
          && (rp.precondition.bind (fun q => q.password)).isNone
          && ! caller.permissions.adminUsers) = true
      · refine ⟨"to change password, must supply previous password or have admin_users permission", ?_⟩
        rw [if_pos hcond]
      · refine ⟨m, ?_⟩
        rw [if_neg hcond, hErr]
    obtain ⟨m2, hm⟩ := key
    exact ⟨by rw [hm], m2, by rw [hm]⟩

/-- Witness for C4: an admin session caller creating a user with a
mismatched CSRF token gets the CSRF error and the store is unchanged. -/
theorem c4_csrf_failure_before_mutation_witness :
    Service.post_users dbOne adminSessionCaller
      { csrf := some 7, user := { username := some "bob" } } =
      (dbOne, .error { kind := .unauthenticated, msg := "csrf token mismatch" }) :=
  ((c4_csrf_failure_before_mutation cpEq dbOne adminSessionCaller 1
      { csrf := some 7, user := { username := some "bob" } } {} {}).1
    { kind := .unauthenticated, msg := "csrf token mismatch" } rfl rfl).1

/-- Claim C6: the Create handler rejects a caller without `admin_users`
with `Unauthenticated`; with admin rights, a session caller failing CSRF
gets the CSRF error before any field is examined; a request without a
username fails with `InvalidArgument`; and any user-payload field beyond
username, password, preferences and permissions (the `disabled` field, or
an unrecognized schema addition) fails with `Unimplemented` instead of
being ignored. In every such case the store is untouched. -/
theorem c6_create_validation (db : Db) (caller : Caller) (r : PutUsers) :
    (caller.permissions.adminUsers = false →
      Service.post_users db caller r =
        (db, .error { kind := .unauthenticated, msg := "must have admin_users permission" })) ∧
    (∀ e, caller.permissions.adminUsers = true →
      requireCsrfIfSession caller r.csrf = .error e →
      Service.post_users db caller r = (db, .error e)) ∧
    (caller.permissions.adminUsers = true →
      requireCsrfIfSession caller r.csrf = .ok () →
      r.user.username = none →
      Service.post_users db caller r =
        (db, .error { kind := .invalidArgument, msg := "username must be specified" })) ∧
    (∀ un, caller.permissions.adminUsers = true →
      requireCsrfIfSession caller r.csrf = .ok () →
      r.user.username = some un →
      (r.user.disabled ≠ none ∨ r.user.unrecognized = true) →
      Service.post_users db caller r =
        (db, .error { kind := .unimplemented, msg := "unsupported user fields" })) := by
  refine ⟨?_, ?_, ?_, ?_⟩
  · intro hNoAdmin
    simp [Service.post_users, hNoAdmin]
  · intro e hAdm hErr
    simp [Service.post_users, hAdm, hErr]
  · intro hAdm hCsrf hNone
    simp [Service.post_users, hAdm, hCsrf, hNone]
  · intro un hAdm hCsrf hSome hne
    obtain ⟨rcsrf, ⟨run2, rpref, rpw, rperm, rdis, runrec⟩⟩ := r
    simp only at hSome hne hCsrf
    subst hSome
    have hrest : (UserSubset.mk none none none none rdis runrec != UserSubset.empty) = true := by
      rw [bne_iff_ne]
      intro h
      simp only [UserSubset.empty, UserSubset.mk.injEq] at h
      rcases hne with h1 | h1
      · exact h1 h.2.2.2.2.1
      · rw [h.2.2.2.2.2] at h1; cases h1
    simp [Service.post_users, hAdm, hCsrf, hrest]

/-- Witness for C6: a non-admin caller creating a user is rejected with
`Unauthenticated` and the store is unchanged. -/
theorem c6_create_validation_witness :
    Service.post_users dbOne strangerCaller { user := { username := some "bob" } } =
      (dbOne, .error { kind := .unauthenticated, msg := "must have admin_users permission" }) :=
  (c6_create_validation dbOne strangerCaller { user := { username := some "bob" } }).1 rfl

/-- Claim C7: a login invocation that requests a cookie-jar file without
supplying a domain fails with the usage error naming the missing domain
requirement, and no cookie-jar file is written. (The target username is
assumed to resolve; an unknown username fails earlier with the not-found
error of C8.) -/
theorem c7_cookie_jar_requires_domain (db : Login.LoginDb) (args : Login.Args) (u : User)
    (hu : db.get_user args.username = some u)
    (hjar : args.curlCookieJar.isSome = true)
    (hdom : args.domain = none) :
    (Login.run db args).2 = .error "--curl-cookie-jar requires --domain" ∧
    ∀ path content, (Login.run db args).2 ≠ .ok (.wroteFile path content) := by
  obtain ⟨p, hp⟩ := Option.isSome_iff_exists.mp hjar
  have hrun : (Login.run db args).2 = .error "--curl-cookie-jar requires --domain" := by
    simp [Login.run, hu, hp, hdom]
  refine ⟨hrun, ?_⟩
  intro path content hcontra
  rw [hrun] at hcontra
  cases hcontra

/-- Witness for C7: requesting a cookie jar for alice without a domain
fails with the usage error and writes nothing. -/
theorem c7_cookie_jar_requires_domain_witness :
    (Login.run loginDbOne jarNoDomainArgs).2 = .error "--curl-cookie-jar requires --domain" :=
  (c7_cookie_jar_requires_domain loginDbOne jarNoDomainArgs alice rfl rfl rfl).1

/-- Claim C8: a login invocation for a username absent from the account
store fails with the not-found error; otherwise exactly one session is
created, owned by the resolved user, whose permission snapshot is the
supplied override when one is given and the user's current permissions
when none is given. -/
theorem c8_login_session_permissions (db : Login.LoginDb) (args : Login.Args) :
    (db.get_user args.username = none →
      Login.run db args = (db, .error ("no such user " ++ args.username))) ∧
    (∀ u, db.get_user args.username = some u →
      ∃ s, (Login.run db args).1.sessions = db.sessions ++ [s] ∧
        s.userId = u.id ∧
        s.permissions = (match args.permissions with
                         | some pOver => pOver
                         | none => u.permissions)) := by
  constructor
  · intro h
    simp [Login.run, h]
  · intro u hu
    refine ⟨{ userId := u.id
              permissions := args.permissions.getD u.permissions
              flags := Login.flagsOf args.sessionFlags
              domain := args.domain }, ?_, rfl, ?_⟩
    · unfold Login.run
      rw [hu]
      cases hj : args.curlCookieJar with
      | none => simp [Login.LoginDb.make_session]
      | some p =>
        cases hd : args.domain with
        | none => simp [Login.LoginDb.make_session]
        | some d => simp [Login.LoginDb.make_session]
    · cases hperm : args.permissions with
      | none => simp
      | some q => simp

/-- Witness for C8: logging alice in without a permission override creates
one session snapshotting her current permissions. -/
theorem c8_login_session_permissions_witness :
    ∃ s, (Login.run loginDbOne plainArgs).1.sessions = loginDbOne.sessions ++ [s] ∧
      s.userId = alice.id ∧
      s.permissions = (match plainArgs.permissions with
                       | some pOver => pOver
                       | none => alice.permissions) :=
  (c8_login_session_permissions loginDbOne plainArgs).2 alice rfl

/-- Claim C9: a Patch body carrying a precondition but no update payload
succeeds with a no-content response and leaves the store untouched,
provided the structural guard, CSRF and every present precondition field
pass: the commit step is skipped entirely when the update payload is
absent. -/
theorem c9_precondition_only_patch_skips_commit (cp : User → Option String → Bool)
    {db : Db} {caller : Caller} {id : Int} {r : PostUser} {user : User}
    (hAuth : require_same_or_admin caller id = .ok ())
    (hUser : db.getUserById id = some user)
    (hCsrf : requireCsrfIfSession caller r.csrf = .ok ())
    (hPre : ∀ p, r.precondition = some p → checkPrecondition cp user p = .ok ())
    (hNoUpd : r.update = none) :
    Service.patch_user cp db caller id r = (db, .ok ()) := by
  have hRef : ((r.update.bind (fun u => u.password)).isSome
      && (r.precondition.bind (fun q => q.password)).isNone
      && ! caller.permissions.adminUsers) = false := by
    rw [hNoUpd]; rfl
  unfold Service.patch_user
  rw [hAuth, hUser, hRef, hCsrf]
  cases hp : r.precondition with
  | none => rw [hNoUpd]; simp
  | some p => rw [hNoUpd]; simp [hPre p hp]

/-- Witness for C9: alice patches herself with a matching `disabled`
precondition and no update; the request succeeds and the store is
unchanged. -/
theorem c9_precondition_only_patch_skips_commit_witness :
    Service.patch_user cpEq dbOne aliceCaller 1
      { precondition := some { disabled := some false }, update := none } =
      (dbOne, .ok ()) :=
  @c9_precondition_only_patch_skips_commit cpEq dbOne aliceCaller 1
    { precondition := some { disabled := some false }, update := none }
    alice rfl rfl rfl (by intro p hp; injection hp with h; subst h; rfl) rfl

/-- Claim C10: a caller who is neither the target user nor an admin gets
`Unauthenticated` from Fetch-single and Patch regardless of the store
contents: the same-or-admin guard runs before the existence lookup, so the
response is one fixed error for every store, and such a caller cannot
distinguish existing from non-existing user ids. -/
theorem c10_unauthenticated_hides_existence (cp : User → Option String → Bool)
    (db db2 : Db) (caller : Caller) (id : Int) (r : PostUser)
    (hNotSame : caller.user.map (fun u => u.id) ≠ some id)
    (hNoAdmin : caller.permissions.adminUsers = false) :
    Service.get_user db caller id =
      .error { kind := .unauthenticated
               msg := "must be authenticated as supplied user or have admin_users permission" } ∧
    Service.patch_user cp db caller id r =
      (db, .error { kind := .unauthenticated
                    msg := "must be authenticated as supplied user or have admin_users permission" }) ∧
    Service.get_user db caller id = Service.get_user db2 caller id ∧
    (Service.patch_user cp db caller id r).2 = (Service.patch_user cp db2 caller id r).2 := by
  have hguard : require_same_or_admin caller id =
      .error { kind := .unauthenticated
               msg := "must be authenticated as supplied user or have admin_users permission" } := by
    unfold require_same_or_admin
    rw [if_pos ⟨hNotSame, by simp [hNoAdmin]⟩]
  have hget : ∀ d : Db, Service.get_user d caller id =
      .error { kind := .unauthenticated
               msg := "must be authenticated as supplied user or have admin_users permission" } := by
    intro d
    simp [Service.get_user, hguard]
  have hpatch : ∀ d : Db, Service.patch_user cp d caller id r =
      (d, .error { kind := .unauthenticated
                   msg := "must be authenticated as supplied user or have admin_users permission" }) := by
    intro d
    simp [Service.patch_user, hguard]
  exact ⟨hget db, hpatch db, (hget db).trans (hget db2).symm,
    by rw [hpatch db, hpatch db2]⟩

/-- Witness for C10: a non-admin stranger fetching alice gets the fixed
`Unauthenticated` error. -/
theorem c10_unauthenticated_hides_existence_witness :
    Service.get_user dbOne strangerCaller 1 =
      .error { kind := .unauthenticated
               msg := "must be authenticated as supplied user or have admin_users permission" } :=
  (c10_unauthenticated_hides_existence cpEq dbOne dbEmpty strangerCaller 1 {}
    (by decide) (by decide)).1

end Moonfire
